import Mathlib

/-!
Shallow embedding of the expense-tracker MCP server core (`src/main.py`):
identity resolution (`require_user`), taxonomy validation and expense
insertion (`add_expense`), date parsing (`datetime.strptime` against the
two formats `%d-%m-%Y` and `%Y-%m-%d`), range normalization as written in
`list_expenses` / `summarize`, and the dynamic query construction of
`summarize`, together with the relational semantics of the SQL the code
issues against PostgreSQL.
-/

namespace ExpenseTracker

/-- A calendar date as produced by `datetime.strptime(...).date()`:
year, month, day, no time component. -/
structure Date where
  year : Nat
  month : Nat
  day : Nat
deriving DecidableEq, Repr

/-- PostgreSQL `date` ordering (calendar order = lexicographic on
year, month, day); used by `BETWEEN $2 AND $3` and `ORDER BY expense_date`. -/
def dateLe (a b : Date) : Bool :=
  if a.year ≠ b.year then decide (a.year < b.year)
  else if a.month ≠ b.month then decide (a.month < b.month)
  else decide (a.day ≤ b.day)

/-- Gregorian leap-year rule, as implemented by Python `datetime`. -/
def isLeap (y : Nat) : Bool :=
  (y % 4 == 0 && y % 100 != 0) || y % 400 == 0

/-- Days in a month, as enforced by Python `datetime.date`. -/
def daysInMonth (y m : Nat) : Nat :=
  if m = 2 then (if isLeap y then 29 else 28)
  else if m = 4 ∨ m = 6 ∨ m = 9 ∨ m = 11 then 30
  else 31

/-- Split a character list on the literal `-` separators of the date formats. -/
def splitDashAux : List Char → List Char → List (List Char)
  | [], acc => [acc.reverse]
  | c :: rest, acc =>
    if c = '-' then acc.reverse :: splitDashAux rest []
    else splitDashAux rest (c :: acc)

def splitDash (s : String) : List (List Char) :=
  splitDashAux s.data []

/-- Accumulate the numeric value of a digit-only character list; `none` on
any non-digit, mirroring the digit groups of `strptime`'s regexes. -/
def parseDigitsAux : List Char → Nat → Option Nat
  | [], acc => some acc
  | c :: rest, acc =>
    if c.isDigit then parseDigitsAux rest (acc * 10 + (c.toNat - 48)) else none

/-- A `%d` or `%m` field: one or two digits whose value lies in `lo..hi`
(Python `_strptime` compiles `%d` to `3[01]|[12]\d|0[1-9]|[1-9]` and `%m`
to `1[0-2]|0[1-9]|[1-9]`). -/
def parseField2 (cs : List Char) (lo hi : Nat) : Option Nat :=
  if cs.length = 1 ∨ cs.length = 2 then
    match parseDigitsAux cs 0 with
    | some v => if lo ≤ v ∧ v ≤ hi then some v else none
    | none => none
  else none

/-- A `%Y` field: exactly four digits (`_strptime` compiles `%Y` to
`\d\d\d\d`). -/
def parseField4 (cs : List Char) : Option Nat :=
  if cs.length = 4 then parseDigitsAux cs 0 else none

/-- Model of `datetime.strptime(s, "%d-%m-%Y").date()`: day, month, year fields
joined by literal dashes, whole string consumed, then `datetime` rejects
calendar-invalid combinations (year 0, day past the end of the month). -/
def strptimeDMY (s : String) : Option Date :=
  match splitDash s with
  | [d, m, y] =>
    match parseField2 d 1 31, parseField2 m 1 12, parseField4 y with
    | some dv, some mv, some yv =>
      if 1 ≤ yv ∧ dv ≤ daysInMonth yv mv then some ⟨yv, mv, dv⟩ else none
    | _, _, _ => none
  | _ => none

/-- Model of `datetime.strptime(s, "%Y-%m-%d").date()`. -/
def strptimeYMD (s : String) : Option Date :=
  match splitDash s with
  | [y, m, d] =>
    match parseField4 y, parseField2 m 1 12, parseField2 d 1 31 with
    | some yv, some mv, some dv =>
      if 1 ≤ yv ∧ dv ≤ daysInMonth yv mv then some ⟨yv, mv, dv⟩ else none
    | _, _, _ => none
  | _ => none

/-- The single-date normalization of `add_expense` (lines 136-142):
try `%d-%m-%Y`, on `ValueError` try `%Y-%m-%d`, else the format error. -/
def normalizeDate (s : String) : Option Date :=
  match strptimeDMY s with
  | some d => some d
  | none => strptimeYMD s

/-- Outcome of the two-date `try/except` blocks of `list_expenses`
(lines 173-181) and `summarize` (lines 225-233). -/
inductive RangeParse where
  /-- Both ends converted; the operation proceeds with these dates. -/
  | ok (start_d end_d : Date)
  /-- The `except ValueError` fallback also failed: the function returns
  `{"error": "Invalid date format."}`. -/
  | formatError
  /-- Uncaught `TypeError`: the first `strptime` call rebound `start_date`
  to a `date` object before the second call raised `ValueError`, so the
  fallback block calls `strptime` on a non-string and the exception
  escapes the handler. -/
  | typeError
deriving DecidableEq, Repr

/-- The range normalization exactly as written in the source: both ends are
attempted with `%d-%m-%Y` inside one `try`; on `ValueError` both are
re-attempted with `%Y-%m-%d` — but if the first format succeeded on
`start_date`, that variable now holds a `date` object and the retry
raises `TypeError`. -/
def parseRange (start_s end_s : String) : RangeParse :=
  match strptimeDMY start_s with
  | some sd =>
    match strptimeDMY end_s with
    | some ed => .ok sd ed
    | none => .typeError
  | none =>
    match strptimeYMD start_s, strptimeYMD end_s with
    | some sd, some ed => .ok sd ed
    | _, _ => .formatError

/-- The claims mapping of a validated access token, restricted to the one
claim the code reads (`token.claims.get("sub")`). `none` models a missing
`"sub"` key. -/
structure AccessToken where
  claims_sub : Option String
deriving DecidableEq, Repr

/-- Embedding of `require_user` (lines 16-23): `get_access_token()` may return no token
(`RuntimeError "Authentication required"`); a present token whose `sub`
claim is missing or falsy (empty string) raises
`RuntimeError "Invalid access token: no user id"`. `none` models the
raised error, `some uid` the returned user id. -/
def require_user (tok : Option AccessToken) : Option String :=
  match tok with
  | none => none
  | some t =>
    match t.claims_sub with
    | none => none
    | some uid => if uid = "" then none else some uid

/-- Python truthiness of an `Optional[str]` argument, as tested by
`if subcategory:` / `if category:`: `None` and `""` are falsy. -/
def truthy : Option String → Bool
  | none => false
  | some s => s ≠ ""

/-- A row of the `categories` table. -/
structure Category where
  id : Nat
  name : String
deriving DecidableEq, Repr

/-- A row of the `subcategories` table. -/
structure Subcategory where
  id : Nat
  category_id : Nat
  name : String
deriving DecidableEq, Repr

/-- A row of the `expenses` table, with the columns the code reads and
writes. Amounts are modelled as rationals. -/
structure Expense where
  id : Nat
  user_id : String
  expense_date : Date
  amount : ℚ
  category_id : Nat
  subcategory_id : Option Nat
  note : String
deriving DecidableEq, Repr

/-- The backing store: the three tables plus the sequence feeding
`RETURNING id` on insert. -/
structure Store where
  categories : List Category
  subcategories : List Subcategory
  expenses : List Expense
  nextExpenseId : Nat
deriving DecidableEq, Repr

/-- Store round trips and the in-process date parse, recorded in order so
that ordering claims (auth before store access, reads before date
parsing) are statable. -/
inductive Event where
  /-- Read `SELECT id FROM categories WHERE name = $1`. -/
  | fetchCategoryByName (name : String)
  /-- Read `SELECT id FROM subcategories WHERE name = $1 AND category_id = $2`. -/
  | fetchSubcategory (name : String) (category_id : Nat)
  /-- The `datetime.strptime` attempts on the single date of `add_expense`. -/
  | parseDate (text : String)
  /-- Write `INSERT INTO expenses ... RETURNING id`. -/
  | insertExpense
  /-- The `SELECT ... FROM expenses ...` of `list_expenses`. -/
  | fetchExpenses
  /-- The dynamically assembled `SELECT ... GROUP BY ...` of `summarize`. -/
  | fetchSummary
deriving DecidableEq, Repr

/-- Which events are store round trips (reads or writes), as opposed to
in-process work. -/
def Event.isStoreAccess : Event → Bool
  | .parseDate _ => false
  | _ => true

/-- Semantics of `conn.fetchrow("SELECT id FROM categories WHERE name = $1", category)`:
first matching row or `None`. -/
def lookupCategory (st : Store) (name : String) : Option Category :=
  st.categories.find? (fun c => c.name == name)

/-- Semantics of `conn.fetchrow("SELECT id FROM subcategories WHERE name = $1 AND
category_id = $2", subcategory, category_id)`. -/
def lookupSubcategory (st : Store) (name : String) (category_id : Nat) :
    Option Subcategory :=
  st.subcategories.find? (fun s => s.name == name && s.category_id == category_id)

/-- Results of `add_expense` visible to the caller: the raised
authentication error, the three returned error dicts, or the ok dict. -/
inductive AddResult where
  /-- Raised `RuntimeError` from `require_user` (hard failure). -/
  | authError
  /-- Returned value `\x7b"error": f"Invalid category: ..."\x7d`. -/
  | unknownCategory (category : String)
  /-- Returned value naming the rejected subcategory and its category. -/
  | unknownSubcategory (subcategory category : String)
  /-- Returned value naming both accepted date formats. -/
  | formatError
  /-- Returned ok value carrying the generated id. -/
  | ok (id : Nat)
deriving DecidableEq, Repr

/-- The taxonomy-validation stage of `add_expense` (lines 113-134),
verbatim: resolve the category by name, then — only when the subcategory
argument is truthy — resolve the subcategory by name scoped to the
resolved category id. Returns the resolved ids or the error result,
plus the store reads performed. -/
def validateTaxonomy (st : Store) (category : String)
    (subcategory : Option String) :
    Except AddResult (Nat × Option Nat) × List Event :=
  match lookupCategory st category with
  | none => (.error (.unknownCategory category), [.fetchCategoryByName category])
  | some cat =>
    if truthy subcategory then
      match lookupSubcategory st (subcategory.getD "") cat.id with
      | none =>
        (.error (.unknownSubcategory (subcategory.getD "") category),
         [.fetchCategoryByName category,
          .fetchSubcategory (subcategory.getD "") cat.id])
      | some sub =>
        (.ok (cat.id, some sub.id),
         [.fetchCategoryByName category,
          .fetchSubcategory (subcategory.getD "") cat.id])
    else (.ok (cat.id, none), [.fetchCategoryByName category])

/-- Embedding of `add_expense` (lines 100-163): `require_user` first, then the taxonomy
lookups, then the date parse, then the insert. Returns the result, the
store after the call, and the ordered event trace. -/
def add_expense (tok : Option AccessToken) (st : Store) (date : String)
    (amount : ℚ) (category : String) (subcategory : Option String)
    (note : String) : AddResult × Store × List Event :=
  match require_user tok with
  | none => (.authError, st, [])
  | some uid =>
    match validateTaxonomy st category subcategory with
    | (.error e, evs) => (e, st, evs)
    | (.ok (category_id, subcategory_id), evs) =>
      match normalizeDate date with
      | none => (.formatError, st, evs ++ [.parseDate date])
      | some d =>
        let e : Expense :=
          ⟨st.nextExpenseId, uid, d, amount, category_id, subcategory_id, note⟩
        (.ok st.nextExpenseId,
         { st with
            expenses := st.expenses ++ [e],
            nextExpenseId := st.nextExpenseId + 1 },
         evs ++ [.parseDate date, .insertExpense])

/-- A row of `list_expenses`' result: expense columns joined with the
category name (inner join) and subcategory name (left join). -/
structure ListRow where
  id : Nat
  expense_date : Date
  amount : ℚ
  category : String
  subcategory : Option String
  note : String
deriving DecidableEq, Repr

/-- The join of one expense row against the reference tables:
`JOIN categories c ON e.category_id = c.id` drops the row when no
category matches; `LEFT JOIN subcategories s ON e.subcategory_id = s.id`
yields a null name when nothing matches. -/
def joinRow (st : Store) (e : Expense) : Option ListRow :=
  match st.categories.find? (fun c => c.id == e.category_id) with
  | none => none
  | some c =>
    some ⟨e.id, e.expense_date, e.amount, c.name,
          (e.subcategory_id.bind fun sid =>
            (st.subcategories.find? (fun s => s.id == sid)).map (·.name)),
          e.note⟩

/-- The `WHERE e.user_id = $1 AND e.expense_date BETWEEN $2 AND $3`
filter shared by `list_expenses` and `summarize`. -/
def expenseInScope (uid : String) (sd ed : Date) (e : Expense) : Bool :=
  e.user_id == uid && dateLe sd e.expense_date && dateLe e.expense_date ed

/-- Results of `list_expenses`. -/
inductive ListResult where
  /-- Raised `RuntimeError` from `require_user`. -/
  | authError
  /-- Returned value reporting the invalid date format. -/
  | formatError
  /-- Uncaught `TypeError` from the range-parse fallback. -/
  | typeError
  /-- The fetched rows. -/
  | ok (rows : List ListRow)
deriving DecidableEq, Repr

/-- The `ORDER BY e.expense_date ASC` relation as a total preorder on result rows. -/
def listRowDateLe (a b : ListRow) : Prop :=
  dateLe a.expense_date b.expense_date = true

instance : DecidableRel listRowDateLe := fun a b => by
  unfold listRowDateLe; infer_instance

/-- Embedding of `list_expenses` (lines 169-209): `require_user`, then the joint range
parse, then one `SELECT` filtered by owner and inclusive date range,
ordered by date ascending. -/
def list_expenses (tok : Option AccessToken) (st : Store)
    (start_s end_s : String) : ListResult × List Event :=
  match require_user tok with
  | none => (.authError, [])
  | some uid =>
    match parseRange start_s end_s with
    | .formatError => (.formatError, [])
    | .typeError => (.typeError, [])
    | .ok sd ed =>
      let rows :=
        ((st.expenses.filter (expenseInScope uid sd ed)).filterMap
          (joinRow st)).insertionSort listRowDateLe
      (.ok rows, [.fetchExpenses])

/-- A positional query parameter as passed to `conn.fetch(query, *params)`. -/
inductive SqlParam where
  | text (s : String)
  | date (d : Date)
deriving DecidableEq, Repr

/-- The positional placeholders referenced by `summarize`'s assembled query
text, in order of appearance: the base query uses `$1 $2 $3`; the category
branch appends `" AND c.name = $4"`; the subcategory branch appends
`" AND s.name = $5"` — both with hard-coded indices (lines 250-256). -/
def summarizePlaceholders (category subcategory : Option String) : List Nat :=
  [1, 2, 3] ++ (if truthy category then [4] else [])
    ++ (if truthy subcategory then [5] else [])

/-- The parameter list built alongside the query: `params = [user_id,
start_date, end_date]` then conditional `params.append(...)` calls. -/
def summarizeParams (uid : String) (sd ed : Date)
    (category subcategory : Option String) : List SqlParam :=
  [.text uid, .date sd, .date ed]
    ++ (if truthy category then [.text (category.getD "")] else [])
    ++ (if truthy subcategory then [.text (subcategory.getD "")] else [])

/-- The query and parameter list agree exactly when the placeholders
referenced are `$1 .. $n` for `n` the parameter count; otherwise the
driver/PostgreSQL rejects the statement (e.g. `$5` referenced with only
four parameters supplied). -/
def summarizeQueryConsistent (uid : String) (sd ed : Date)
    (category subcategory : Option String) : Bool :=
  summarizePlaceholders category subcategory
    == List.range' 1 (summarizeParams uid sd ed category subcategory).length

/-- A row of `summarize`'s result. -/
structure SummaryRow where
  category : String
  subcategory : Option String
  total_amount : ℚ
deriving DecidableEq, Repr

/-- The `GROUP BY c.name, s.name` key of a summary row. -/
def summaryKey (r : SummaryRow) : String × Option String :=
  (r.category, r.subcategory)

/-- The joined, owner- and date-filtered rows feeding `summarize`'s
aggregation, keyed by `(c.name, s.name)` and carrying `e.amount`. -/
def summarizeBase (st : Store) (uid : String) (sd ed : Date) :
    List ((String × Option String) × ℚ) :=
  (st.expenses.filter (expenseInScope uid sd ed)).filterMap
    (fun e => (joinRow st e).map (fun r => ((r.category, r.subcategory), r.amount)))

/-- The optional equality predicates `AND c.name = $4` / `AND s.name = $5`
on the joined names; a SQL `NULL` subcategory name never satisfies the
equality. -/
def rowPassesFilters (category subcategory : Option String)
    (k : String × Option String) : Bool :=
  (if truthy category then k.1 == category.getD "" else true)
    && (if truthy subcategory then k.2 == some (subcategory.getD "") else true)

/-- Semantics of `GROUP BY c.name, s.name` with `SUM(e.amount)`: one output row per
distinct key, carrying the sum of the amounts of its group. -/
def groupTotals (rows : List ((String × Option String) × ℚ)) :
    List SummaryRow :=
  ((rows.map Prod.fst).dedup).map
    (fun k => ⟨k.1, k.2, ((rows.filter (fun r => r.1 == k)).map Prod.snd).sum⟩)

/-- The `ORDER BY total_amount DESC` relation as a total preorder on summary rows. -/
def summaryGE (a b : SummaryRow) : Prop :=
  b.total_amount ≤ a.total_amount

instance : DecidableRel summaryGE := fun a b => by
  unfold summaryGE; infer_instance

instance : IsTotal SummaryRow summaryGE :=
  ⟨fun a b => le_total b.total_amount a.total_amount⟩

instance : IsTrans SummaryRow summaryGE :=
  ⟨fun _ _ _ hab hbc => le_trans hbc hab⟩

/-- Results of `summarize`. -/
inductive SummarizeResult where
  /-- Raised `RuntimeError` from `require_user`. -/
  | authError
  /-- Returned value reporting the invalid date format. -/
  | formatError
  /-- Uncaught `TypeError` from the range-parse fallback. -/
  | typeError
  /-- The assembled query references a placeholder beyond the supplied
  parameter list, so `conn.fetch` raises instead of returning rows. -/
  | queryParamError
  /-- The aggregated rows. -/
  | ok (rows : List SummaryRow)
deriving DecidableEq, Repr

/-- Embedding of `summarize` (lines 215-267): `require_user`, the joint range parse,
then the dynamically assembled aggregate query: owner and inclusive date
range always filtered, optional name filters appended with hard-coded
`$4` / `$5` placeholders, grouped by the joined names and ordered by
total descending. -/
def summarize (tok : Option AccessToken) (st : Store)
    (start_s end_s : String) (category subcategory : Option String) :
    SummarizeResult × List Event :=
  match require_user tok with
  | none => (.authError, [])
  | some uid =>
    match parseRange start_s end_s with
    | .formatError => (.formatError, [])
    | .typeError => (.typeError, [])
    | .ok sd ed =>
      if summarizeQueryConsistent uid sd ed category subcategory then
        (.ok ((groupTotals
                ((summarizeBase st uid sd ed).filter
                  (fun r => rowPassesFilters category subcategory r.1))).insertionSort
                summaryGE),
         [.fetchSummary])
      else (.queryParamError, [.fetchSummary])

end ExpenseTracker

namespace ExpenseTracker

/-- Claim C6: whenever a date string parses under the first format
`DD-MM-YYYY`, normalization returns exactly that reading — the second
format is never consulted. In particular any string valid in both
readings resolves by day-month-year precedence. -/
theorem normalizeDate_dmy_precedence (s : String) (d : Date)
    (h : strptimeDMY s = some d) : normalizeDate s = some d := by
  unfold normalizeDate
  rw [h]

/-- Witness for C6: "01-02-2020" parses day-first as day 1, month 2,
year 2020, and normalization resolves it that way (not as month 1,
day 2). -/
theorem normalizeDate_dmy_precedence_witness :
    strptimeDMY "01-02-2020" = some ⟨2020, 2, 1⟩ ∧
      normalizeDate "01-02-2020" = some ⟨2020, 2, 1⟩ :=
  ⟨by decide, normalizeDate_dmy_precedence "01-02-2020" ⟨2020, 2, 1⟩ (by decide)⟩

/-- Claim C1 (evaluated at the failing combination): with no filters, a
category filter alone, or both filters, the placeholders referenced by
`summarize`'s assembled query are exactly `$1..$n` for `n` supplied
parameters; but with only a subcategory filter the query references
`[$1, $2, $3, $5]` while only four parameters are supplied, so the
subcategory predicate binds a hard-coded fifth slot that does not exist
and the fetch fails instead of returning rows. -/
theorem summarize_placeholder_mismatch :
    summarizeQueryConsistent "u" ⟨2024, 1, 1⟩ ⟨2024, 12, 31⟩ none none = true ∧
    summarizeQueryConsistent "u" ⟨2024, 1, 1⟩ ⟨2024, 12, 31⟩
      (some "Food") none = true ∧
    summarizeQueryConsistent "u" ⟨2024, 1, 1⟩ ⟨2024, 12, 31⟩
      (some "Food") (some "Groceries") = true ∧
    summarizePlaceholders none (some "Transit") = [1, 2, 3, 5] ∧
    (summarizeParams "u" ⟨2024, 1, 1⟩ ⟨2024, 12, 31⟩
      none (some "Transit")).length = 4 ∧
    summarizeQueryConsistent "u" ⟨2024, 1, 1⟩ ⟨2024, 12, 31⟩
      none (some "Transit") = false ∧
    (summarize (some ⟨some "u"⟩) ⟨[], [], [], 1⟩ "2024-01-01" "2024-12-31"
      none (some "Transit")).1 = .queryParamError := by
  decide

/-- Claim C2 (evaluated at the failing range): the ends of a range are not
parsed independently. For a start valid only as `DD-MM-YYYY` and an end
valid only as `YYYY-MM-DD`, the first `try` rebinds the start to a date
object before the end raises `ValueError`, so the fallback block calls
`strptime` on a non-string and the resulting `TypeError` escapes — the
operation neither succeeds nor returns the format-error value, in both
`list_expenses` and `summarize`. -/
theorem parseRange_type_confusion :
    strptimeDMY "15-01-2024" = some ⟨2024, 1, 15⟩ ∧
    strptimeDMY "2024-01-20" = none ∧
    strptimeYMD "2024-01-20" = some ⟨2024, 1, 20⟩ ∧
    parseRange "15-01-2024" "2024-01-20" = .typeError ∧
    (list_expenses (some ⟨some "u"⟩) ⟨[], [], [], 1⟩
      "15-01-2024" "2024-01-20").1 = .typeError ∧
    (summarize (some ⟨some "u"⟩) ⟨[], [], [], 1⟩
      "15-01-2024" "2024-01-20" none none).1 = .typeError := by
  decide

/-- Claim C3: when no identity is resolvable (no token, or a missing or
empty `sub` claim), each of the three authenticated operations returns
the authentication error with an empty event trace — zero store reads,
zero store writes, no date parsing — and the store is unchanged. -/
theorem auth_failure_aborts_all (tok : Option AccessToken) (st : Store)
    (date : String) (amount : ℚ) (category : String)
    (subcategory : Option String) (note start_s end_s : String)
    (cat2 sub2 : Option String)
    (h : require_user tok = none) :
    add_expense tok st date amount category subcategory note
      = (.authError, st, []) ∧
    list_expenses tok st start_s end_s = (.authError, []) ∧
    summarize tok st start_s end_s cat2 sub2 = (.authError, []) := by
  refine ⟨?_, ?_, ?_⟩ <;> simp [add_expense, list_expenses, summarize, h]

/-- Witness for C3: a token whose identity claim is the empty string is
rejected, and `add_expense` / `list_expenses` / `summarize` all abort
with the authentication error and no store access. -/
theorem auth_failure_aborts_all_witness :
    require_user (some ⟨some ""⟩) = none ∧
    add_expense (some ⟨some ""⟩) ⟨[], [], [], 1⟩ "15-01-2024" 5 "Food"
        none "" = (.authError, ⟨[], [], [], 1⟩, []) ∧
    list_expenses (some ⟨some ""⟩) ⟨[], [], [], 1⟩ "2024-01-01"
        "2024-01-31" = (.authError, []) ∧
    summarize (some ⟨some ""⟩) ⟨[], [], [], 1⟩ "2024-01-01" "2024-01-31"
        none none = (.authError, []) := by
  have h := auth_failure_aborts_all (some ⟨some ""⟩) ⟨[], [], [], 1⟩
    "15-01-2024" 5 "Food" none "" "2024-01-01" "2024-01-31" none none
    (by decide)
  exact ⟨by decide, h.1, h.2.1, h.2.2⟩

/-- The three error results `add_expense` returns as values (as opposed to
the raised authentication error and the ok result). -/
def AddResult.isValidationError : AddResult → Bool
  | .unknownCategory _ => true
  | .unknownSubcategory _ _ => true
  | .formatError => true
  | _ => false

/-- Claim C4: whenever `add_expense` fails with `UnknownCategory`,
`UnknownSubcategory` or the date-format error, the store is returned
unchanged — no expense row is inserted, even when validation succeeded
partway. -/
theorem add_expense_error_no_insert (tok : Option AccessToken) (st : Store)
    (date : String) (amount : ℚ) (category : String)
    (subcategory : Option String) (note : String)
    (h : (add_expense tok st date amount category subcategory
            note).1.isValidationError = true) :
    (add_expense tok st date amount category subcategory note).2.1 = st := by
  unfold add_expense at h ⊢
  cases hru : require_user tok with
  | none => simp [hru]
  | some uid =>
    simp only [hru] at h ⊢
    rcases hv : validateTaxonomy st category subcategory with ⟨ve, evs⟩
    cases ve with
    | error e => simp [hv]
    | ok ids =>
      rcases ids with ⟨cid, sid⟩
      simp only [hv] at h ⊢
      cases hnd : normalizeDate date with
      | none => simp [hnd]
      | some d => simp [hnd, AddResult.isValidationError] at h

/-- Witness for C4: adding under subcategory "Transit" of category "Food"
when "Transit" exists only under "Transport" yields the validation error
and leaves the store — including its two seeded expenses — unchanged. -/
theorem add_expense_error_no_insert_witness :
    (add_expense (some ⟨some "alice"⟩)
        ⟨[⟨1, "Food"⟩, ⟨2, "Transport"⟩], [⟨7, 2, "Transit"⟩],
         [⟨1, "alice", ⟨2024, 1, 2⟩, 12, 1, none, ""⟩], 2⟩
        "15-01-2024" 30 "Food" (some "Transit") "").1.isValidationError
      = true ∧
    (add_expense (some ⟨some "alice"⟩)
        ⟨[⟨1, "Food"⟩, ⟨2, "Transport"⟩], [⟨7, 2, "Transit"⟩],
         [⟨1, "alice", ⟨2024, 1, 2⟩, 12, 1, none, ""⟩], 2⟩
        "15-01-2024" 30 "Food" (some "Transit") "").2.1
      = ⟨[⟨1, "Food"⟩, ⟨2, "Transport"⟩], [⟨7, 2, "Transit"⟩],
         [⟨1, "alice", ⟨2024, 1, 2⟩, 12, 1, none, ""⟩], 2⟩ :=
  ⟨by decide,
   add_expense_error_no_insert (some ⟨some "alice"⟩)
     ⟨[⟨1, "Food"⟩, ⟨2, "Transport"⟩], [⟨7, 2, "Transit"⟩],
      [⟨1, "alice", ⟨2024, 1, 2⟩, 12, 1, none, ""⟩], 2⟩
     "15-01-2024" 30 "Food" (some "Transit") "" (by decide)⟩

/-- Claim C9: an empty-string subcategory argument to `add_expense` is
treated exactly as an absent one (the call is indistinguishable from the
`None` call, hence no subcategory lookup, no subcategory error, and an
absent subcategory id on insert), and an empty-string category or
subcategory argument to `summarize` adds no filter predicate. -/
theorem empty_string_optionals_ignored (tok : Option AccessToken)
    (st : Store) (date : String) (amount : ℚ) (category note : String)
    (start_s end_s : String) (cat2 sub2 : Option String) :
    add_expense tok st date amount category (some "") note
      = add_expense tok st date amount category none note ∧
    (∀ n cid,
      Event.fetchSubcategory n cid
        ∉ (add_expense tok st date amount category (some "") note).2.2) ∧
    summarize tok st start_s end_s (some "") sub2
      = summarize tok st start_s end_s none sub2 ∧
    summarize tok st start_s end_s cat2 (some "")
      = summarize tok st start_s end_s cat2 none := by
  have htr : truthy (some "") = truthy none := by decide
  refine ⟨?_, ?_, ?_, ?_⟩
  · unfold add_expense validateTaxonomy
    rw [htr]
    rfl
  · intro n cid
    unfold add_expense validateTaxonomy
    rw [htr]
    cases hru : require_user tok with
    | none => simp
    | some uid =>
      simp only [truthy]
      cases hlc : lookupCategory st category with
      | none => simp
      | some c =>
        simp only
        cases hnd : normalizeDate date with
        | none => simp
        | some d => simp
  · unfold summarize summarizeQueryConsistent summarizePlaceholders
      summarizeParams
    rw [htr]
    have hf : ∀ k : String × Option String,
        rowPassesFilters (some "") sub2 k = rowPassesFilters none sub2 k := by
      intro k; unfold rowPassesFilters; rw [htr]; rfl
    simp only [hf]
    rfl
  · unfold summarize summarizeQueryConsistent summarizePlaceholders
      summarizeParams
    rw [htr]
    have hf : ∀ k : String × Option String,
        rowPassesFilters cat2 (some "") k = rowPassesFilters cat2 none k := by
      intro k; unfold rowPassesFilters; rw [htr]; rfl
    simp only [hf]
    rfl

/-- Claim C5 counterexample: in a store whose subcategory name `""` exists
only under "Transport", validating the pair ("Food", "") succeeds with an
absent subcategory id instead of failing with the unknown-subcategory
error — the truthiness check treats the supplied empty name as no name at
all, so the cross-category mismatch is silently dropped. -/
theorem validate_scoped_counterexample :
    (⟨5, 2, ""⟩ : Subcategory)
        ∈ (⟨[⟨1, "Food"⟩, ⟨2, "Transport"⟩], [⟨5, 2, ""⟩], [], 1⟩ : Store).subcategories ∧
    (⟨5, 2, ""⟩ : Subcategory).category_id ≠ 1 ∧
    lookupCategory ⟨[⟨1, "Food"⟩, ⟨2, "Transport"⟩], [⟨5, 2, ""⟩], [], 1⟩
        "Food" = some ⟨1, "Food"⟩ ∧
    lookupSubcategory ⟨[⟨1, "Food"⟩, ⟨2, "Transport"⟩], [⟨5, 2, ""⟩], [], 1⟩
        "" 1 = none ∧
    (validateTaxonomy ⟨[⟨1, "Food"⟩, ⟨2, "Transport"⟩], [⟨5, 2, ""⟩], [], 1⟩
        "Food" (some "")).1 = .ok (1, none) :=
  ⟨by decide, by decide, by decide, by decide, rfl⟩

/-- Claim C5 (amended to nonempty subcategory names): given a resolved
category and a nonempty subcategory name, validation succeeds with the
matching category and subcategory ids exactly when the name exists scoped
under the category's id; when no subcategory row with that name carries
the category's id — in particular when the name exists only under a
different category — validation fails with the unknown-subcategory error
and is never silently corrected. -/
theorem validate_scoped (st : Store) (category sname : String)
    (c : Category) (hc : lookupCategory st category = some c)
    (hne : sname ≠ "") :
    (∀ srow, lookupSubcategory st sname c.id = some srow →
        (validateTaxonomy st category (some sname)).1
          = .ok (c.id, some srow.id)) ∧
    (lookupSubcategory st sname c.id = none →
        (validateTaxonomy st category (some sname)).1
          = .error (.unknownSubcategory sname category)) ∧
    ((∀ srow ∈ st.subcategories, srow.name = sname → srow.category_id ≠ c.id) →
        (validateTaxonomy st category (some sname)).1
          = .error (.unknownSubcategory sname category)) := by
  have htr : truthy (some sname) = true := by
    simp [truthy, hne]
  have hnone : (∀ srow ∈ st.subcategories, srow.name = sname →
      srow.category_id ≠ c.id) → lookupSubcategory st sname c.id = none := by
    intro hall
    unfold lookupSubcategory
    rw [List.find?_eq_none]
    intro x hx
    simp only [Bool.and_eq_true, beq_iff_eq]
    rintro ⟨hn, hcid⟩
    exact hall x hx hn hcid
  refine ⟨?_, ?_, ?_⟩
  · intro srow hs
    simp [validateTaxonomy, hc, htr, hs]
  · intro hs
    simp [validateTaxonomy, hc, htr, hs]
  · intro hall
    simp [validateTaxonomy, hc, htr, hnone hall]

/-- Witness for C5 (amended): with "Transit" seeded only under
"Transport", validating it under "Food" fails with the
unknown-subcategory error. -/
theorem validate_scoped_witness :
    (validateTaxonomy
        ⟨[⟨1, "Food"⟩, ⟨2, "Transport"⟩], [⟨7, 2, "Transit"⟩], [], 1⟩
        "Food" (some "Transit")).1
      = .error (.unknownSubcategory "Transit" "Food") :=
  (validate_scoped
      ⟨[⟨1, "Food"⟩, ⟨2, "Transport"⟩], [⟨7, 2, "Transit"⟩], [], 1⟩
      "Food" "Transit" ⟨1, "Food"⟩ (by decide) (by decide)).2.2
    (by decide)

/-- Which events are store reads (`SELECT`s), as opposed to the in-process
date parse and the insert. -/
def Event.isStoreRead : Event → Bool
  | .fetchCategoryByName _ => true
  | .fetchSubcategory _ _ => true
  | .fetchExpenses => true
  | .fetchSummary => true
  | _ => false

/-- In a trace of the form `pre ++ parse :: post` where the parse marker
occurs in neither `pre` nor `post`, any decomposition at the parse marker
has exactly `post` to its right, so a property of `post`'s elements holds
to the right of every such decomposition. -/
theorem events_after_unique_parse (d : String) (P : Event → Prop)
    (pre post : List Event)
    (hpre : Event.parseDate d ∉ pre)
    (hpost : ∀ x ∈ post, P x ∧ x ≠ Event.parseDate d) :
    ∀ l1 l2, pre ++ Event.parseDate d :: post = l1 ++ Event.parseDate d :: l2 →
      ∀ e ∈ l2, P e := by
  induction pre with
  | nil =>
    intro l1 l2 heq e he
    cases l1 with
    | nil =>
      simp only [List.nil_append, List.cons.injEq] at heq
      exact (hpost e (heq.2 ▸ he)).1
    | cons x l1' =>
      simp only [List.nil_append, List.cons_append, List.cons.injEq] at heq
      exfalso
      have : Event.parseDate d ∈ l1' ++ Event.parseDate d :: l2 := by
        simp
      rw [← heq.2] at this
      exact (hpost _ this).2 rfl
  | cons p pre' ih =>
    intro l1 l2 heq e he
    cases l1 with
    | nil =>
      simp only [List.cons_append, List.nil_append, List.cons.injEq] at heq
      exact absurd (heq.1 ▸ List.mem_cons_self p pre') hpre
    | cons x l1' =>
      simp only [List.cons_append, List.cons.injEq] at heq
      exact ih (fun hmem => hpre (List.mem_cons_of_mem p hmem))
        l1' l2 heq.2 e he

/-- Claim C10: under a resolved identity, `add_expense` validates the
taxonomy (with its store reads) before the date format: an unknown
category yields the unknown-category result — regardless of the date
text — after exactly the one category read; a format error can only be
returned once the category (and, when a subcategory is truthily supplied,
the subcategory) resolved; and in every event trace no store read occurs
after the date parse. -/
theorem add_expense_taxonomy_before_date (tok : Option AccessToken)
    (st : Store) (date : String) (amount : ℚ) (category : String)
    (subcategory : Option String) (note : String) (uid : String)
    (hu : require_user tok = some uid) :
    (lookupCategory st category = none →
      add_expense tok st date amount category subcategory note
        = (.unknownCategory category, st, [.fetchCategoryByName category])) ∧
    ((add_expense tok st date amount category subcategory note).1
        = .formatError →
      (lookupCategory st category).isSome = true ∧
      (∀ c, lookupCategory st category = some c → truthy subcategory = true →
        (lookupSubcategory st (subcategory.getD "") c.id).isSome = true)) ∧
    (∀ l1 l2, (add_expense tok st date amount category subcategory note).2.2
        = l1 ++ Event.parseDate date :: l2 →
      ∀ e ∈ l2, e.isStoreRead = false) := by
  refine ⟨fun hlc => ?_, fun hfe => ?_, fun l1 l2 heq => ?_⟩
  · simp [add_expense, validateTaxonomy, hu, hlc]
  · cases hlc : lookupCategory st category with
    | none => simp [add_expense, validateTaxonomy, hu, hlc] at hfe
    | some c =>
      refine ⟨by simp, fun c' hc' htr => ?_⟩
      injection hc' with hcc
      subst hcc
      cases hls : lookupSubcategory st (subcategory.getD "") c.id with
      | none =>
        simp [add_expense, validateTaxonomy, hu, hlc, htr, hls] at hfe
      | some srow => simp
  · cases hlc : lookupCategory st category with
    | none =>
      have htrace :
          (add_expense tok st date amount category subcategory note).2.2
            = [Event.fetchCategoryByName category] := by
        simp [add_expense, validateTaxonomy, hu, hlc]
      rw [htrace] at heq
      have hmem : Event.parseDate date
          ∈ ([Event.fetchCategoryByName category] : List Event) := by
        rw [heq]; simp
      simp at hmem
    | some c =>
      cases htr : truthy subcategory with
      | false =>
        cases hnd : normalizeDate date with
        | none =>
          have htrace :
              (add_expense tok st date amount category subcategory note).2.2
                = [Event.fetchCategoryByName category]
                    ++ Event.parseDate date :: [] := by
            simp [add_expense, validateTaxonomy, hu, hlc, htr, hnd]
          exact events_after_unique_parse date
            (fun x => x.isStoreRead = false) _ _
            (by simp) (by simp) l1 l2 (htrace ▸ heq)
        | some d =>
          have htrace :
              (add_expense tok st date amount category subcategory note).2.2
                = [Event.fetchCategoryByName category]
                    ++ Event.parseDate date :: [Event.insertExpense] := by
            simp [add_expense, validateTaxonomy, hu, hlc, htr, hnd]
          exact events_after_unique_parse date
            (fun x => x.isStoreRead = false) _ _
            (by simp) (by simp [Event.isStoreRead]) l1 l2 (htrace ▸ heq)
      | true =>
        cases hls : lookupSubcategory st (subcategory.getD "") c.id with
        | none =>
          have htrace :
              (add_expense tok st date amount category subcategory note).2.2
                = [Event.fetchCategoryByName category,
                   Event.fetchSubcategory (subcategory.getD "") c.id] := by
            simp [add_expense, validateTaxonomy, hu, hlc, htr, hls]
          rw [htrace] at heq
          have hmem : Event.parseDate date
              ∈ ([Event.fetchCategoryByName category,
                  Event.fetchSubcategory (subcategory.getD "") c.id] :
                  List Event) := by
            rw [heq]; simp
          simp at hmem
        | some srow =>
          cases hnd : normalizeDate date with
          | none =>
            have htrace :
                (add_expense tok st date amount category subcategory note).2.2
                  = [Event.fetchCategoryByName category,
                     Event.fetchSubcategory (subcategory.getD "") c.id]
                      ++ Event.parseDate date :: [] := by
              simp [add_expense, validateTaxonomy, hu, hlc, htr, hls, hnd]
            exact events_after_unique_parse date
              (fun x => x.isStoreRead = false) _ _
              (by simp) (by simp) l1 l2 (htrace ▸ heq)
          | some d =>
            have htrace :
                (add_expense tok st date amount category subcategory note).2.2
                  = [Event.fetchCategoryByName category,
                     Event.fetchSubcategory (subcategory.getD "") c.id]
                      ++ Event.parseDate date :: [Event.insertExpense] := by
              simp [add_expense, validateTaxonomy, hu, hlc, htr, hls, hnd]
            exact events_after_unique_parse date
              (fun x => x.isStoreRead = false) _ _
              (by simp) (by simp [Event.isStoreRead]) l1 l2 (htrace ▸ heq)

/-- Witness for C10: with an unknown category and a date matching neither
format, `add_expense` returns the unknown-category error — not the format
error — after exactly one store read and no date parse. -/
theorem add_expense_taxonomy_before_date_witness :
    add_expense (some ⟨some "alice"⟩) ⟨[], [], [], 1⟩ "not-a-date" 5
        "Nope" none ""
      = (.unknownCategory "Nope", ⟨[], [], [], 1⟩,
         [.fetchCategoryByName "Nope"]) :=
  (add_expense_taxonomy_before_date (some ⟨some "alice"⟩) ⟨[], [], [], 1⟩
      "not-a-date" 5 "Nope" none "" "alice" (by decide)).1 (by decide)

/-- Claim C7: inserting an expense with a taxonomy-valid
category/subcategory pair and a date inside a range, into a store with no
prior expenses, then listing that range as the same caller, returns
exactly the inserted record with the same category name, subcategory name
and amount. The two `find?`-by-id hypotheses say the resolved rows are
the ones found again by id on the read path (unique ids). -/
theorem add_then_list_roundtrip (tok : Option AccessToken) (uid : String)
    (st : Store) (date_s start_s end_s : String) (amount : ℚ)
    (category sname note : String) (c : Category) (srow : Subcategory)
    (d sd ed : Date)
    (hu : require_user tok = some uid)
    (hempty : st.expenses = [])
    (hc : lookupCategory st category = some c)
    (hcid : st.categories.find? (fun x => x.id == c.id) = some c)
    (hne : sname ≠ "")
    (hs : lookupSubcategory st sname c.id = some srow)
    (hsid : st.subcategories.find? (fun x => x.id == srow.id) = some srow)
    (hd : normalizeDate date_s = some d)
    (hr : parseRange start_s end_s = .ok sd ed)
    (h1 : dateLe sd d = true) (h2 : dateLe d ed = true) :
    (add_expense tok st date_s amount category (some sname) note).1
      = .ok st.nextExpenseId ∧
    (list_expenses tok
        (add_expense tok st date_s amount category (some sname) note).2.1
        start_s end_s).1
      = .ok [⟨st.nextExpenseId, d, amount, c.name, some sname, note⟩] := by
  have htr : truthy (some sname) = true := by simp [truthy, hne]
  have hs' : st.subcategories.find?
      (fun s => s.name == sname && s.category_id == c.id) = some srow := hs
  have hp := List.find?_some hs'
  simp only [Bool.and_eq_true, beq_iff_eq] at hp
  have hsname : srow.name = sname := hp.1
  have hst : (add_expense tok st date_s amount category (some sname) note).2.1
      = { st with
            expenses := st.expenses
              ++ [⟨st.nextExpenseId, uid, d, amount, c.id, some srow.id, note⟩],
            nextExpenseId := st.nextExpenseId + 1 } := by
    simp [add_expense, validateTaxonomy, hu, hc, htr, hs, hd]
  refine ⟨?_, ?_⟩
  · simp [add_expense, validateTaxonomy, hu, hc, htr, hs, hd]
  · rw [hst]
    simp only [list_expenses, hu, hr, hempty]
    simp only [List.nil_append]
    have hscope : expenseInScope uid sd ed
        ⟨st.nextExpenseId, uid, d, amount, c.id, some srow.id, note⟩ = true := by
      simp [expenseInScope, h1, h2]
    have hjoin : joinRow
        { st with
            expenses := [⟨st.nextExpenseId, uid, d, amount, c.id, some srow.id, note⟩],
            nextExpenseId := st.nextExpenseId + 1 }
        ⟨st.nextExpenseId, uid, d, amount, c.id, some srow.id, note⟩
        = some ⟨st.nextExpenseId, d, amount, c.name, some sname, note⟩ := by
      simp [joinRow, hcid, hsid, hsname]
    simp [hscope, hjoin]

/-- Witness for C7: with "Groceries" seeded under "Food", adding the
expense ("15-01-2024", 42.5, "Food", "Groceries") as "alice" to an empty
ledger and listing 2024-01-01..2024-01-31 returns exactly that record. -/
theorem add_then_list_roundtrip_witness :
    (add_expense (some ⟨some "alice"⟩)
        ⟨[⟨1, "Food"⟩], [⟨4, 1, "Groceries"⟩], [], 1⟩
        "15-01-2024" (85 / 2) "Food" (some "Groceries") "").1 = .ok 1 ∧
    (list_expenses (some ⟨some "alice"⟩)
        (add_expense (some ⟨some "alice"⟩)
          ⟨[⟨1, "Food"⟩], [⟨4, 1, "Groceries"⟩], [], 1⟩
          "15-01-2024" (85 / 2) "Food" (some "Groceries") "").2.1
        "2024-01-01" "2024-01-31").1
      = .ok [⟨1, ⟨2024, 1, 15⟩, 85 / 2, "Food", some "Groceries", ""⟩] :=
  add_then_list_roundtrip (some ⟨some "alice"⟩) "alice"
    ⟨[⟨1, "Food"⟩], [⟨4, 1, "Groceries"⟩], [], 1⟩
    "15-01-2024" "2024-01-01" "2024-01-31" (85 / 2) "Food" "Groceries" ""
    ⟨1, "Food"⟩ ⟨4, 1, "Groceries"⟩ ⟨2024, 1, 15⟩ ⟨2024, 1, 1⟩ ⟨2024, 1, 31⟩
    (by decide) rfl (by decide) (by decide) (by decide) (by decide)
    (by decide) (by decide) (by decide) (by decide) (by decide)

/-- The keys of the grouped rows are exactly the deduplicated keys of the
input rows. -/
theorem map_summaryKey_groupTotals
    (rows : List ((String × Option String) × ℚ)) :
    (groupTotals rows).map summaryKey = (rows.map Prod.fst).dedup := by
  simp only [groupTotals, List.map_map]
  exact List.map_id'' (fun k => rfl) _

/-- Every grouped row carries the sum of the amounts of the input rows
sharing its key. -/
theorem total_of_mem_groupTotals
    (rows : List ((String × Option String) × ℚ)) (r : SummaryRow)
    (h : r ∈ groupTotals rows) :
    r.total_amount
      = ((rows.filter (fun p => p.1 == summaryKey r)).map Prod.snd).sum := by
  simp only [groupTotals, List.mem_map] at h
  obtain ⟨k, hk, rfl⟩ := h
  simp [summaryKey]

/-- Claim C8: `summarize` with both filters absent succeeds and returns
one row per distinct (category, subcategory) key among the caller's
joined expenses inside the inclusive range — keys pairwise distinct,
present if and only if the caller has such an expense — each row carrying
the sum of its group's amounts, and the rows sorted by total amount
descending. -/
theorem summarize_groups_and_sorts (tok : Option AccessToken)
    (uid : String) (st : Store) (start_s end_s : String) (sd ed : Date)
    (hu : require_user tok = some uid)
    (hr : parseRange start_s end_s = .ok sd ed) :
    ∃ rows, (summarize tok st start_s end_s none none).1 = .ok rows ∧
      rows.Sorted summaryGE ∧
      (rows.map summaryKey).Nodup ∧
      (∀ k, k ∈ rows.map summaryKey
        ↔ k ∈ (summarizeBase st uid sd ed).map Prod.fst) ∧
      (∀ r ∈ rows, r.total_amount
        = (((summarizeBase st uid sd ed).filter
              (fun p => p.1 == summaryKey r)).map Prod.snd).sum) := by
  have hfil : (summarizeBase st uid sd ed).filter
      (fun r => rowPassesFilters none none r.1) = summarizeBase st uid sd ed := by
    rw [List.filter_eq_self]
    intro a _
    rfl
  refine ⟨(groupTotals (summarizeBase st uid sd ed)).insertionSort summaryGE,
    ?_, ?_, ?_, ?_, ?_⟩
  · simp only [summarize, hu, hr]
    rw [hfil]
    rfl
  · exact List.sorted_insertionSort summaryGE _
  · rw [((List.perm_insertionSort summaryGE
        (groupTotals (summarizeBase st uid sd ed))).map summaryKey).nodup_iff,
      map_summaryKey_groupTotals]
    exact List.nodup_dedup _
  · intro k
    rw [((List.perm_insertionSort summaryGE
        (groupTotals (summarizeBase st uid sd ed))).map summaryKey).mem_iff,
      map_summaryKey_groupTotals, List.mem_dedup]
  · intro r hmem
    exact total_of_mem_groupTotals _ r
      ((List.perm_insertionSort summaryGE _).mem_iff.mp hmem)

/-- Witness for C8: a ledger with three in-range expenses of "alice"
(two under (Food, Groceries), one under (Transport, Transit)) and one
out-of-range expense; `summarize` without filters groups them by key,
sums the groups, and orders them by descending total. -/
theorem summarize_groups_and_sorts_witness :
    ∃ rows,
      (summarize (some ⟨some "alice"⟩)
          ⟨[⟨1, "Food"⟩, ⟨2, "Transport"⟩],
           [⟨4, 1, "Groceries"⟩, ⟨7, 2, "Transit"⟩],
           [⟨1, "alice", ⟨2024, 1, 5⟩, 10, 1, some 4, ""⟩,
            ⟨2, "alice", ⟨2024, 1, 9⟩, 7, 2, some 7, ""⟩,
            ⟨3, "alice", ⟨2024, 1, 20⟩, 5, 1, some 4, ""⟩,
            ⟨4, "alice", ⟨2023, 6, 1⟩, 100, 1, some 4, ""⟩], 5⟩
          "2024-01-01" "2024-01-31" none none).1 = .ok rows ∧
      rows.Sorted summaryGE ∧
      (rows.map summaryKey).Nodup ∧
      (∀ k, k ∈ rows.map summaryKey
        ↔ k ∈ (summarizeBase
            ⟨[⟨1, "Food"⟩, ⟨2, "Transport"⟩],
             [⟨4, 1, "Groceries"⟩, ⟨7, 2, "Transit"⟩],
             [⟨1, "alice", ⟨2024, 1, 5⟩, 10, 1, some 4, ""⟩,
              ⟨2, "alice", ⟨2024, 1, 9⟩, 7, 2, some 7, ""⟩,
              ⟨3, "alice", ⟨2024, 1, 20⟩, 5, 1, some 4, ""⟩,
              ⟨4, "alice", ⟨2023, 6, 1⟩, 100, 1, some 4, ""⟩], 5⟩
            "alice" ⟨2024, 1, 1⟩ ⟨2024, 1, 31⟩).map Prod.fst) ∧
      (∀ r ∈ rows, r.total_amount
        = (((summarizeBase
              ⟨[⟨1, "Food"⟩, ⟨2, "Transport"⟩],
               [⟨4, 1, "Groceries"⟩, ⟨7, 2, "Transit"⟩],
               [⟨1, "alice", ⟨2024, 1, 5⟩, 10, 1, some 4, ""⟩,
                ⟨2, "alice", ⟨2024, 1, 9⟩, 7, 2, some 7, ""⟩,
                ⟨3, "alice", ⟨2024, 1, 20⟩, 5, 1, some 4, ""⟩,
                ⟨4, "alice", ⟨2023, 6, 1⟩, 100, 1, some 4, ""⟩], 5⟩
              "alice" ⟨2024, 1, 1⟩ ⟨2024, 1, 31⟩).filter
              (fun p => p.1 == summaryKey r)).map Prod.snd).sum) :=
  summarize_groups_and_sorts (some ⟨some "alice"⟩) "alice"
    ⟨[⟨1, "Food"⟩, ⟨2, "Transport"⟩],
     [⟨4, 1, "Groceries"⟩, ⟨7, 2, "Transit"⟩],
     [⟨1, "alice", ⟨2024, 1, 5⟩, 10, 1, some 4, ""⟩,
      ⟨2, "alice", ⟨2024, 1, 9⟩, 7, 2, some 7, ""⟩,
      ⟨3, "alice", ⟨2024, 1, 20⟩, 5, 1, some 4, ""⟩,
      ⟨4, "alice", ⟨2023, 6, 1⟩, 100, 1, some 4, ""⟩], 5⟩
    "2024-01-01" "2024-01-31" ⟨2024, 1, 1⟩ ⟨2024, 1, 31⟩
    (by decide) (by decide)

end ExpenseTracker
